import Mathlib

/-!
Verification of the PyWebIO HTTP-based backend (`src/pywebio/platform/httpbased.py`).

The module implements a long-poll session broker: an `HttpHandler` keeps a
process-wide registry of sessions (`_webio_sessions : dict sid -> Session`),
an activity index (`_webio_expire : LRUDict sid -> last active timestamp`),
and a last-sweep timestamp.  `handle_request` classifies each request
(CORS preflight, liveness probe, session creation, lookup, event push /
command pull), touches the activity index, opportunistically sweeps expired
sessions and produces the response.

The embedding below translates that file.  External collaborators are
modelled by values: a session handle carries the answers the handler can
observe at this request (`closed()`, `get_task_commands()`); calls into the
handle (`close()`, `send_client_event()`) are recorded in effect logs
returned next to the new state.  Wall-clock reads within one request are
modelled by a single `now` parameter, and the random id / freshly
constructed session are inputs of `handle_request`.
-/

/-- A task command as seen by the handler: the handler itself only ever
constructs the `close_session` instruction (`dict(command='close_session')`);
all other commands are opaque payloads produced by the external session. -/
inductive Cmd where
  | closeSession : Cmd
  | payload : Nat → Cmd
deriving DecidableEq, Repr

/-- External session handle, restricted to the observations the handler makes
during one request: `closed()` and the commands `get_task_commands()` returns. -/
structure WebioSession where
  isClosed : Bool
  taskCommands : List Cmd
deriving DecidableEq, Repr

/-- An inbound request as seen through the `HttpContext` transport contract:
`request_method()`, `request_headers()`, `request_url_parameter('test')` and
`request_json()` (an opaque decoded payload, `none` when the body is not JSON). -/
structure HttpRequest where
  method : String
  headers : List (String × String)
  testParam : Option String
  jsonBody : Option Nat
deriving DecidableEq, Repr

/-- Response body: unset, plain text (`set_content('ok')`) or a JSON command
list (`set_content(..., json_type=True)`). -/
inductive RespBody where
  | empty : RespBody
  | text : String → RespBody
  | json : List Cmd → RespBody
deriving DecidableEq, Repr

/-- The response under construction.  A transport that never receives
`set_status` answers 200, hence the default. -/
structure HttpResponse where
  status : Nat := 200
  headers : List (String × String) := []
  body : RespBody := RespBody.empty
deriving DecidableEq, Repr

/-- The class-level mutable state of `HttpHandler`: `_webio_sessions`,
`_webio_expire` (an insertion-ordered dict, least-recently-seen first) and
`_last_check_session_expire_ts`. -/
structure HState where
  webio_sessions : List (String × WebioSession)
  webio_expire : List (String × Int)
  last_check_session_expire_ts : Int
deriving DecidableEq, Repr

/-- Association-list lookup with decidable string keys (dict `get` / `in`). -/
def lookupKey {α : Type} (k : String) : List (String × α) → Option α
  | [] => none
  | (k', v) :: rest => if k' = k then some v else lookupKey k rest

/-- Removing a key (`dict.pop(k, None)` / `del dict[k]` for a present key). -/
def eraseKey {α : Type} (k : String) (l : List (String × α)) : List (String × α) :=
  l.filter (fun p => p.1 ≠ k)

/-- Plain-dict `d[k] = v`: update in place when present, else append. -/
def dictSet {α : Type} (l : List (String × α)) (k : String) (v : α) : List (String × α) :=
  if (lookupKey k l).isSome then l.map (fun p => if p.1 = k then (k, v) else p)
  else l ++ [(k, v)]

/-- Modelled from the spec: `LRUDict.__setitem__` (from `pywebio/utils.py`,
which is not part of the provided sources).  Per the spec the activity index
is "re-ordered to the most-recently-seen position on update (equivalent to
moving it to the end of an activity-ordered sequence)", so assignment removes
any existing entry for the key and appends the new binding at the end. -/
def lruSet (l : List (String × Int)) (k : String) (v : Int) : List (String × Int) :=
  eraseKey k l ++ [(k, v)]

/-- Python truthiness of an optional string (`if context.request_url_parameter('test')`,
`if request_headers.get('Origin')`): present and non-empty. -/
def pyTruthyStr : Option String → Bool
  | none => false
  | some s => !(s = "")

/-- `DEFAULT_SESSION_EXPIRE_SECONDS = 60`. -/
def DEFAULT_SESSION_EXPIRE_SECONDS : Int := 60

/-- `SESSIONS_CLEANUP_INTERVAL = 20`. -/
def SESSIONS_CLEANUP_INTERVAL : Int := 20

/-- Python `x or d` for an optional integer argument: `None` and `0` are
falsy and give the default. -/
def pyOrInt (v : Option Int) (d : Int) : Int :=
  match v with
  | none => d
  | some x => if x = 0 then d else x

/-! ### Shell-glob matching (`fnmatch.fnmatch`, POSIX `normcase` = identity)

`*` matches any run of characters, `?` a single character, `[seq]` a
character class with ranges and `[!seq]` its negation; a `[` with no closing
`]` is a literal `[` (CPython `fnmatch.translate` behaviour, where the scan
for the closing bracket starts after an initial `!` and an initial `]`). -/

/-- Splits a character-class body at the first `]`, returning the class
content and the remainder of the pattern; `none` when the class is unclosed. -/
def splitAtClose : List Char → Option (List Char × List Char)
  | [] => none
  | ']' :: rest => some ([], rest)
  | c :: rest =>
    match splitAtClose rest with
    | some (content, r) => some (c :: content, r)
    | none => none

/-- Parses the part of a glob pattern following `[`: negation flag, class
content and the pattern remainder after the closing `]`. -/
def parseClass (ps : List Char) : Option (Bool × List Char × List Char) :=
  let negSplit : Bool × List Char :=
    match ps with
    | '!' :: r => (true, r)
    | _ => (false, ps)
  match negSplit.2 with
  | ']' :: r2 =>
    match splitAtClose r2 with
    | some (content, rest) => some (negSplit.1, ']' :: content, rest)
    | none => none
  | other =>
    match splitAtClose other with
    | some (content, rest) => some (negSplit.1, content, rest)
    | none => none

/-- Membership of a character in a class body, with `a-b` ranges. -/
def classMatch (c : Char) : List Char → Bool
  | a :: '-' :: b :: rest => (decide (a ≤ c) && decide (c ≤ b)) || classMatch c rest
  | a :: rest => decide (c = a) || classMatch c rest
  | [] => false

/-- One unit of a compiled glob pattern. -/
inductive GTok where
  | star : GTok
  | anyChar : GTok
  | cls : Bool → List Char → GTok
  | lit : Char → GTok
deriving DecidableEq, Repr

/-- Compiles a glob pattern into tokens.  The fuel argument only bounds the
recursion (each step consumes at least one pattern character, so an initial
fuel of the pattern length always suffices). -/
def tokenizeF : Nat → List Char → List GTok
  | 0, _ => []
  | _ + 1, [] => []
  | fuel + 1, '*' :: ps => GTok.star :: tokenizeF fuel ps
  | fuel + 1, '?' :: ps => GTok.anyChar :: tokenizeF fuel ps
  | fuel + 1, '[' :: ps =>
    match parseClass ps with
    | some (neg, content, rest) => GTok.cls neg content :: tokenizeF fuel rest
    | none => GTok.lit '[' :: tokenizeF fuel ps
  | fuel + 1, c :: ps => GTok.lit c :: tokenizeF fuel ps

/-- Compiled form of a glob pattern. -/
def tokenize (p : List Char) : List GTok :=
  tokenizeF p.length p

/-- Matching a compiled glob pattern: `star` tries every suffix of the
remaining input. -/
def globMatch : List GTok → List Char → Bool
  | [], s => s.isEmpty
  | GTok.star :: ps, s => s.tails.any (fun suf => globMatch ps suf)
  | GTok.anyChar :: ps, s =>
    match s with
    | [] => false
    | _ :: s2 => globMatch ps s2
  | GTok.cls neg content :: ps, s =>
    match s with
    | [] => false
    | c :: s2 =>
      (if neg then !(classMatch c content) else classMatch c content) && globMatch ps s2
  | GTok.lit a :: ps, s =>
    match s with
    | [] => false
    | c :: s2 => decide (c = a) && globMatch ps s2

/-- `fnmatch.fnmatch(name, patten)`. -/
def fnmatch (name patten : String) : Bool :=
  globMatch (tokenize patten.data) name.data

/-- The per-instance configuration resolved by `HttpHandler.__init__`. -/
structure HandlerConfig where
  session_expire_seconds : Int
  session_cleanup_interval : Int
  check_origin : String → Bool

/-- `HttpHandler.__init__` (configuration part): `or`-coalescing of the two
interval arguments against the class defaults, and resolution of the origin
policy — an explicit `check_origin` predicate wins, otherwise any-match of
`fnmatch` over `allowed_origins or []`. -/
def httpHandler_init (session_expire_seconds session_cleanup_interval : Option Int)
    (allowed_origins : Option (List String)) (check_origin : Option (String → Bool)) :
    HandlerConfig :=
  { session_expire_seconds := pyOrInt session_expire_seconds DEFAULT_SESSION_EXPIRE_SECONDS
    session_cleanup_interval := pyOrInt session_cleanup_interval SESSIONS_CLEANUP_INTERVAL
    check_origin :=
      match check_origin with
      | some f => f
      | none => fun origin => (allowed_origins.getD []).any (fun patten => fnmatch origin patten) }

/-- `HttpHandler._process_cors`: read the `Origin` header (defaulting to the
empty string) and, when `check_origin` accepts it, append the five CORS
response headers; otherwise leave the response untouched. -/
def process_cors (check_origin : String → Bool) (req : HttpRequest)
    (resp : HttpResponse) : HttpResponse :=
  let origin := (lookupKey "Origin" req.headers).getD ""
  if check_origin origin then
    { resp with headers := resp.headers ++
        [("Access-Control-Allow-Origin", origin),
         ("Access-Control-Allow-Methods", "GET, POST"),
         ("Access-Control-Allow-Headers", "content-type, webio-session-id"),
         ("Access-Control-Expose-Headers", "webio-session-id"),
         ("Access-Control-Max-Age", toString (1440 * 60))] }
  else resp

/-- The loop body of `HttpHandler._remove_expired_sessions`: pop the
least-recently-seen entry; if it is still fresh (`now - active_ts <
session_expire_seconds`) reinsert it at the front and stop, else close a
registered handle (recording the `close()` call), delete it from the session
map and continue.  Returns the new session map, the new activity index and
the ids whose handles were closed, in call order. -/
def sweepRun (exp now : Int) (sessions : List (String × WebioSession)) :
    List (String × Int) →
    List (String × WebioSession) × List (String × Int) × List String
  | [] => (sessions, [], [])
  | (sid, ts) :: rest =>
    if now - ts < exp then
      (sessions, (sid, ts) :: rest, [])
    else
      match lookupKey sid sessions with
      | some _ =>
        let r := sweepRun exp now (eraseKey sid sessions) rest
        (r.1, r.2.1, sid :: r.2.2)
      | none => sweepRun exp now sessions rest

/-- `HttpHandler._remove_expired_sessions` on the handler state. -/
def remove_expired_sessions (session_expire_seconds now : Int) (st : HState) :
    HState × List String :=
  let r := sweepRun session_expire_seconds now st.webio_sessions st.webio_expire
  ({ st with webio_sessions := r.1, webio_expire := r.2.1 }, r.2.2)

/-- `HttpHandler._remove_webio_session`: `pop(sid, None)` on both structures
(and nothing else — in particular no `close()` call). -/
def remove_webio_session (sid : String) (st : HState) : HState :=
  { st with
    webio_sessions := eraseKey sid st.webio_sessions
    webio_expire := eraseKey sid st.webio_expire }

/-- Lines 173–191 of `handle_request`, shared by the freshly-created and the
resolved-session paths: optional event delivery on POST, activity touch,
interval-gated expiration sweep, command fetch and removal of a closed
session.  Returns the new state, the response, the ids closed by the sweep
and the client events delivered via `send_client_event`. -/
def finishRequest (cfg : HandlerConfig) (st : HState) (req : HttpRequest)
    (now : Int) (sid : String) (sess : WebioSession) (resp : HttpResponse) :
    HState × HttpResponse × List String × List Nat :=
  let clientEvents : List Nat :=
    if req.method = "POST" then
      match req.jsonBody with
      | some j => [j]
      | none => []
    else []
  let st1 : HState := { st with webio_expire := lruSet st.webio_expire sid now }
  let swept : HState × List String :=
    if now - st1.last_check_session_expire_ts > cfg.session_cleanup_interval then
      remove_expired_sessions cfg.session_expire_seconds now
        { st1 with last_check_session_expire_ts := now }
    else (st1, [])
  let resp2 : HttpResponse := { resp with body := RespBody.json sess.taskCommands }
  let st3 : HState :=
    if sess.isClosed then remove_webio_session sid swept.1 else swept.1
  (st3, resp2, swept.2, clientEvents)

/-- `HttpHandler.handle_request`.  `now` stands for the `time.time()` reads
of this request, `freshId` for `random_str(24)` and `freshSession` for the
handle the external `session_cls` constructor would return. -/
def handle_request (cfg : HandlerConfig) (st : HState) (req : HttpRequest)
    (now : Int) (freshId : String) (freshSession : WebioSession) :
    HState × HttpResponse × List String × List Nat :=
  let resp0 : HttpResponse := {}
  if req.method = "OPTIONS" then
    (st, { process_cors cfg.check_origin req resp0 with status := 204 }, [], [])
  else
    let resp1 :=
      if pyTruthyStr (lookupKey "Origin" req.headers) then
        process_cors cfg.check_origin req resp0
      else resp0
    if pyTruthyStr req.testParam then
      (st, { resp1 with body := RespBody.text "ok" }, [], [])
    else
      let sidHdr := lookupKey "webio-session-id" req.headers
      if sidHdr = none ∨ sidHdr = some "" then
        if req.method = "POST" then
          (st, { resp1 with status := 403 }, [], [])
        else
          let resp2 := { resp1 with headers := resp1.headers ++ [("webio-session-id", freshId)] }
          let st1 := { st with webio_sessions := dictSet st.webio_sessions freshId freshSession }
          finishRequest cfg st1 req now freshId freshSession resp2
      else
        let sid := sidHdr.getD ""
        match lookupKey sid st.webio_sessions with
        | none => (st, { resp1 with body := RespBody.json [Cmd.closeSession] }, [], [])
        | some sess => finishRequest cfg st req now sid sess resp1

/-- The initial class-level state: empty maps, `_last_check_session_expire_ts = 0`. -/
def initState : HState :=
  { webio_sessions := [], webio_expire := [], last_check_session_expire_ts := 0 }

/-- One request event: the request together with this request's clock value,
fresh id and freshly constructed session handle. -/
structure ReqEvent where
  req : HttpRequest
  now : Int
  freshId : String
  freshSession : WebioSession

/-- Folding `handle_request` over a sequence of requests. -/
def runRequests (cfg : HandlerConfig) (st : HState) : List ReqEvent → HState
  | [] => st
  | e :: es => runRequests cfg (handle_request cfg st e.req e.now e.freshId e.freshSession).1 es

/-- Invariant carried by the activity index: entries ascend by timestamp and
no entry is newer than the clock. -/
def sortedBounded (l : List (String × Int)) (t : Int) : Prop :=
  List.Pairwise (fun p q : String × Int => p.2 ≤ q.2) l ∧ ∀ p ∈ l, p.2 ≤ t

/-! ### Concrete fixtures used by witnesses and counterexamples -/

/-- A concrete configuration (defaults, deny-all origin policy). -/
def cfgW : HandlerConfig :=
  { session_expire_seconds := 60, session_cleanup_interval := 20,
    check_origin := fun _ => false }

/-- A live session handle with one pending command. -/
def sessW : WebioSession := { isClosed := false, taskCommands := [Cmd.payload 7] }

/-- A session handle whose task has finished. -/
def sessClosedW : WebioSession := { isClosed := true, taskCommands := [Cmd.payload 9] }

/-- A POST liveness probe: truthy `test` parameter, no session id. -/
def reqProbePostW : HttpRequest :=
  { method := "POST", headers := [], testParam := some "1", jsonBody := none }

/-- A plain POST without a session id. -/
def reqPostW : HttpRequest :=
  { method := "POST", headers := [], testParam := none, jsonBody := none }

/-- A GET bearing session id `s`. -/
def reqGetSW : HttpRequest :=
  { method := "GET", headers := [("webio-session-id", "s")], testParam := none, jsonBody := none }

/-- A GET bearing session id `a`. -/
def reqGetAW : HttpRequest :=
  { method := "GET", headers := [("webio-session-id", "a")], testParam := none, jsonBody := none }

/-- A GET bearing an unregistered session id. -/
def reqGetUnknownW : HttpRequest :=
  { method := "GET", headers := [("webio-session-id", "zzz")], testParam := none, jsonBody := none }

/-- A PUT bearing session id `s`. -/
def reqPutSW : HttpRequest :=
  { method := "PUT", headers := [("webio-session-id", "s")], testParam := none, jsonBody := none }

/-- One live session `s`, last active at time 0. -/
def stOneW : HState :=
  { webio_sessions := [("s", sessW)], webio_expire := [("s", 0)],
    last_check_session_expire_ts := 0 }

/-- One already-closed session `s`, last active at time 0. -/
def stClosedW : HState :=
  { webio_sessions := [("s", sessClosedW)], webio_expire := [("s", 0)],
    last_check_session_expire_ts := 0 }

/-- Two sessions: `a` stale (time 0), `b` fresh (time 50). -/
def stTwoW : HState :=
  { webio_sessions := [("a", sessW), ("b", sessW)],
    webio_expire := [("a", 0), ("b", 50)], last_check_session_expire_ts := 0 }

/-- A session-creating GET at time 1. -/
def evW1 : ReqEvent :=
  { req := { method := "GET", headers := [], testParam := none, jsonBody := none },
    now := 1, freshId := "a", freshSession := sessW }

/-- A session-creating GET at time 2. -/
def evW2 : ReqEvent :=
  { req := { method := "GET", headers := [], testParam := none, jsonBody := none },
    now := 2, freshId := "b", freshSession := sessW }

/-- A request whose `Origin` header is an allowed origin. -/
def reqOriginW : HttpRequest :=
  { method := "GET", headers := [("Origin", "https://a.example.com")],
    testParam := none, jsonBody := none }

/-- A concrete origin predicate accepting exactly one origin. -/
def chkW : String → Bool := fun o => o = "https://a.example.com"

/-! ### Association-list lemmas -/

/-- Key absent exactly when no pair carries it. -/
theorem lookupKey_eq_none_iff {α : Type} (k : String) (l : List (String × α)) :
    lookupKey k l = none ↔ ∀ p ∈ l, p.1 ≠ k := by
  induction l with
  | nil => simp [lookupKey]
  | cons hd tl ih =>
    obtain ⟨k', v⟩ := hd
    by_cases h : k' = k <;> simp [lookupKey, h, ih]

theorem lookupKey_filter_none {α : Type} (k : String) (l : List (String × α))
    (p : String × α → Bool) (h : lookupKey k l = none) :
    lookupKey k (l.filter p) = none := by
  rw [lookupKey_eq_none_iff] at h ⊢
  intro q hq
  exact h q (List.mem_of_mem_filter hq)

theorem lookupKey_eraseKey_self {α : Type} (k : String) (l : List (String × α)) :
    lookupKey k (eraseKey k l) = none := by
  rw [lookupKey_eq_none_iff]
  intro q hq
  have := List.of_mem_filter hq
  simpa using this

theorem lookupKey_eraseKey_ne {α : Type} (k k' : String) (l : List (String × α))
    (h : k ≠ k') : lookupKey k (eraseKey k' l) = lookupKey k l := by
  induction l with
  | nil => rfl
  | cons hd tl ih =>
    obtain ⟨k0, v⟩ := hd
    by_cases h0 : k0 = k'
    · have hk : ¬ (k0 = k) := by
        intro hh
        exact h (by rw [← hh, h0])
      simp only [eraseKey, List.filter_cons] at ih ⊢
      simp [lookupKey, h0, hk, Ne.symm h]
      simpa [eraseKey] using ih
    · by_cases h1 : k0 = k
      · simp [eraseKey, List.filter_cons, h0, lookupKey, h1, h]
      · simp only [eraseKey, List.filter_cons] at ih ⊢
        simp [lookupKey, h0, h1]
        simpa [eraseKey] using ih

/-! ### Expiration-sweep lemmas -/

/-- The sweep never adds a session: an absent id stays absent. -/
theorem sweepRun_sessions_none (exp now : Int) (sid : String) :
    ∀ (expire : List (String × Int)) (sessions : List (String × WebioSession)),
      lookupKey sid sessions = none →
      lookupKey sid (sweepRun exp now sessions expire).1 = none := by
  intro expire
  induction expire with
  | nil => intro sessions h; simpa [sweepRun] using h
  | cons hd tl ih =>
    intro sessions h
    obtain ⟨sid0, ts0⟩ := hd
    by_cases hf : now - ts0 < exp
    · simpa [sweepRun, hf] using h
    · cases hlk : lookupKey sid0 sessions with
      | none => simpa [sweepRun, hf, hlk] using ih sessions h
      | some s =>
        have : lookupKey sid (eraseKey sid0 sessions) = none :=
          lookupKey_filter_none sid sessions _ h
        simpa [sweepRun, hf, hlk] using ih (eraseKey sid0 sessions) this

/-- The surviving activity index is a suffix of the input index. -/
theorem sweepRun_expire_suffix (exp now : Int) :
    ∀ (expire : List (String × Int)) (sessions : List (String × WebioSession)),
      (sweepRun exp now sessions expire).2.1 <:+ expire := by
  intro expire
  induction expire with
  | nil => intro sessions; simp [sweepRun]
  | cons hd tl ih =>
    intro sessions
    obtain ⟨sid0, ts0⟩ := hd
    by_cases hf : now - ts0 < exp
    · simp [sweepRun, hf]
    · cases hlk : lookupKey sid0 sessions with
      | none =>
        simpa [sweepRun, hf, hlk] using (ih sessions).trans (List.suffix_cons _ _)
      | some s =>
        simpa [sweepRun, hf, hlk] using
          (ih (eraseKey sid0 sessions)).trans (List.suffix_cons _ _)

/-- After a sweep over an activity-ordered index, every surviving entry is
fresh. -/
theorem sweepRun_remaining_fresh (exp now : Int) :
    ∀ (expire : List (String × Int)) (sessions : List (String × WebioSession)),
      List.Pairwise (fun p q : String × Int => p.2 ≤ q.2) expire →
      ∀ p ∈ (sweepRun exp now sessions expire).2.1, now - p.2 < exp := by
  intro expire
  induction expire with
  | nil => intro sessions _ p hp; simp [sweepRun] at hp
  | cons hd tl ih =>
    intro sessions hsort p hp
    obtain ⟨sid0, ts0⟩ := hd
    by_cases hf : now - ts0 < exp
    · simp [sweepRun, hf] at hp
      rcases hp with rfl | hp
      · simpa using hf
      · have hle : ts0 ≤ p.2 := by
          have := (List.pairwise_cons.mp hsort).1 p hp
          exact this
        omega
    · cases hlk : lookupKey sid0 sessions with
      | none =>
        simp only [sweepRun, if_neg hf, hlk] at hp
        exact ih sessions (List.pairwise_cons.mp hsort).2 p hp
      | some s =>
        simp only [sweepRun, if_neg hf, hlk] at hp
        exact ih (eraseKey sid0 sessions) (List.pairwise_cons.mp hsort).2 p hp

/-- Over an activity-ordered, duplicate-free index, a sweep removes every
entry idle for at least the threshold from both structures. -/
theorem sweepRun_expired_removed (exp now : Int) :
    ∀ (expire : List (String × Int)) (sessions : List (String × WebioSession)),
      List.Pairwise (fun p q : String × Int => p.2 ≤ q.2) expire →
      (expire.map Prod.fst).Nodup →
      ∀ p ∈ expire, now - p.2 ≥ exp →
        lookupKey p.1 (sweepRun exp now sessions expire).2.1 = none ∧
        lookupKey p.1 (sweepRun exp now sessions expire).1 = none := by
  intro expire
  induction expire with
  | nil => intro sessions _ _ p hp; simp at hp
  | cons hd tl ih =>
    intro sessions hsort hnd p hp hexp
    obtain ⟨sid0, ts0⟩ := hd
    by_cases hf : now - ts0 < exp
    · exfalso
      rcases List.mem_cons.mp hp with rfl | hmem
      · simp at hexp; omega
      · have hle : ts0 ≤ p.2 := (List.pairwise_cons.mp hsort).1 p hmem
        omega
    · have hnd' : (tl.map Prod.fst).Nodup := (List.nodup_cons.mp hnd).2
      have hnotin : sid0 ∉ tl.map Prod.fst := (List.nodup_cons.mp hnd).1
      have hsort' := (List.pairwise_cons.mp hsort).2
      rcases List.mem_cons.mp hp with rfl | hmem
      · constructor
        · -- sid0 is gone from the surviving index: it is a suffix of tl
          have hsuffix :
              ∀ sess2 : List (String × WebioSession),
                lookupKey sid0 (sweepRun exp now sess2 tl).2.1 = none := by
            intro sess2
            rw [lookupKey_eq_none_iff]
            intro q hq
            have : q ∈ tl := (sweepRun_expire_suffix exp now tl sess2).sublist.mem hq
            intro hq1
            exact hnotin (hq1 ▸ List.mem_map_of_mem Prod.fst this)
          cases hlk : lookupKey sid0 sessions with
          | none => simpa [sweepRun, hf, hlk] using hsuffix sessions
          | some s => simpa [sweepRun, hf, hlk] using hsuffix (eraseKey sid0 sessions)
        · cases hlk : lookupKey sid0 sessions with
          | none =>
            simpa [sweepRun, hf, hlk] using sweepRun_sessions_none exp now sid0 tl sessions hlk
          | some s =>
            have h1 : lookupKey sid0 (eraseKey sid0 sessions) = none :=
              lookupKey_eraseKey_self sid0 sessions
            simpa [sweepRun, hf, hlk] using
              sweepRun_sessions_none exp now sid0 tl (eraseKey sid0 sessions) h1
      · cases hlk : lookupKey sid0 sessions with
        | none =>
          simpa [sweepRun, hf, hlk] using ih sessions hsort' hnd' p hmem hexp
        | some s =>
          simpa [sweepRun, hf, hlk] using
            ih (eraseKey sid0 sessions) hsort' hnd' p hmem hexp

/-- Over an activity-ordered, duplicate-free index, every expired entry whose
id holds a registered handle has `close()` called on it by the sweep. -/
theorem sweepRun_closes_mem (exp now : Int) :
    ∀ (expire : List (String × Int)) (sessions : List (String × WebioSession)),
      List.Pairwise (fun p q : String × Int => p.2 ≤ q.2) expire →
      (expire.map Prod.fst).Nodup →
      ∀ p ∈ expire, now - p.2 ≥ exp →
        (lookupKey p.1 sessions).isSome →
        p.1 ∈ (sweepRun exp now sessions expire).2.2 := by
  intro expire
  induction expire with
  | nil => intro sessions _ _ p hp; simp at hp
  | cons hd tl ih =>
    intro sessions hsort hnd p hp hexp hsome
    obtain ⟨sid0, ts0⟩ := hd
    by_cases hf : now - ts0 < exp
    · exfalso
      rcases List.mem_cons.mp hp with rfl | hmem
      · simp at hexp; omega
      · have hle : ts0 ≤ p.2 := (List.pairwise_cons.mp hsort).1 p hmem
        omega
    · have hnd' : (tl.map Prod.fst).Nodup := (List.nodup_cons.mp hnd).2
      have hnotin : sid0 ∉ tl.map Prod.fst := (List.nodup_cons.mp hnd).1
      have hsort' := (List.pairwise_cons.mp hsort).2
      rcases List.mem_cons.mp hp with rfl | hmem
      · cases hlk : lookupKey sid0 sessions with
        | none => rw [show (sid0, ts0).1 = sid0 from rfl, hlk] at hsome; simp at hsome
        | some s => simp [sweepRun, hf, hlk]
      · have hne : p.1 ≠ sid0 := by
          intro hh
          exact hnotin (hh ▸ List.mem_map_of_mem Prod.fst hmem)
        cases hlk : lookupKey sid0 sessions with
        | none =>
          simp only [sweepRun, if_neg hf, hlk]
          exact ih sessions hsort' hnd' p hmem hexp hsome
        | some s =>
          have hsome' : (lookupKey p.1 (eraseKey sid0 sessions)).isSome := by
            rwa [lookupKey_eraseKey_ne p.1 sid0 sessions hne]
          simp only [sweepRun, if_neg hf, hlk]
          simp only [List.mem_cons]
          exact Or.inr (ih (eraseKey sid0 sessions) hsort' hnd' p hmem hexp hsome')

/-! ### Request-path lemmas -/

theorem process_cors_status (chk : String → Bool) (req : HttpRequest) (resp : HttpResponse) :
    (process_cors chk req resp).status = resp.status := by
  unfold process_cors
  dsimp only
  split <;> rfl

theorem process_cors_body (chk : String → Bool) (req : HttpRequest) (resp : HttpResponse) :
    (process_cors chk req resp).body = resp.body := by
  unfold process_cors
  dsimp only
  split <;> rfl

/-- Lines 166–168: a non-empty session id that is not registered yields the
`close_session` body and terminates the request with no state change and no
effect on any session handle. -/
theorem handle_request_unknown_sid (cfg : HandlerConfig) (st : HState) (req : HttpRequest)
    (now : Int) (freshId : String) (freshSession : WebioSession) (s : String)
    (hm : req.method ≠ "OPTIONS") (hp : pyTruthyStr req.testParam = false)
    (hs : lookupKey "webio-session-id" req.headers = some s) (hne : s ≠ "")
    (hmiss : lookupKey s st.webio_sessions = none) :
    (handle_request cfg st req now freshId freshSession).1 = st ∧
    (handle_request cfg st req now freshId freshSession).2.1.status = 200 ∧
    (handle_request cfg st req now freshId freshSession).2.1.body =
      RespBody.json [Cmd.closeSession] ∧
    (handle_request cfg st req now freshId freshSession).2.2.1 = [] ∧
    (handle_request cfg st req now freshId freshSession).2.2.2 = [] := by
  unfold handle_request
  rw [if_neg hm]
  simp only [hp, Bool.false_eq_true, if_false, hs]
  rw [if_neg (by simp [hne])]
  simp only [Option.getD_some, hmiss]
  refine ⟨trivial, ?_, trivial, trivial, trivial⟩
  split
  · exact process_cors_status _ _ _
  · rfl

/-- Lines 153–156: a non-probe POST without a usable session id is rejected
with 403, leaving the state untouched and producing no effects. -/
theorem handle_request_csrf (cfg : HandlerConfig) (st : HState) (req : HttpRequest)
    (now : Int) (freshId : String) (freshSession : WebioSession)
    (hm : req.method = "POST") (hp : pyTruthyStr req.testParam = false)
    (hs : lookupKey "webio-session-id" req.headers = none ∨
          lookupKey "webio-session-id" req.headers = some "") :
    (handle_request cfg st req now freshId freshSession).1 = st ∧
    (handle_request cfg st req now freshId freshSession).2.1.status = 403 ∧
    (handle_request cfg st req now freshId freshSession).2.2.1 = [] ∧
    (handle_request cfg st req now freshId freshSession).2.2.2 = [] := by
  unfold handle_request
  rw [if_neg (by rw [hm]; decide)]
  simp only [hp, Bool.false_eq_true, if_false]
  rw [if_pos hs, if_pos hm]
  simp

/-- The established-session path (fresh or resolved) answers 200 with the
session's pending commands. -/
theorem handle_request_established (cfg : HandlerConfig) (st : HState) (req : HttpRequest)
    (now : Int) (freshId : String) (freshSession : WebioSession) (s : String)
    (sess : WebioSession)
    (hm : req.method ≠ "OPTIONS") (hp : pyTruthyStr req.testParam = false)
    (hs : lookupKey "webio-session-id" req.headers = some s) (hne : s ≠ "")
    (hfound : lookupKey s st.webio_sessions = some sess) :
    (handle_request cfg st req now freshId freshSession).2.1.status = 200 ∧
    (handle_request cfg st req now freshId freshSession).2.1.body =
      RespBody.json sess.taskCommands := by
  unfold handle_request
  rw [if_neg hm]
  simp only [hp, Bool.false_eq_true, if_false, hs]
  rw [if_neg (by simp [hne])]
  simp only [Option.getD_some, hfound, finishRequest]
  refine ⟨?_, trivial⟩
  split
  · exact process_cors_status _ _ _
  · rfl

/-- Any method other than `OPTIONS` and `POST` is routed exactly like `GET`. -/
theorem handle_request_method_like_get (cfg : HandlerConfig) (st : HState)
    (req : HttpRequest) (now : Int) (freshId : String) (freshSession : WebioSession)
    (h1 : req.method ≠ "OPTIONS") (h2 : req.method ≠ "POST") :
    handle_request cfg st req now freshId freshSession =
      handle_request cfg st { req with method := "GET" } now freshId freshSession := by
  unfold handle_request finishRequest
  simp [h1, h2, process_cors]

/-! ### Activity-ordering invariant lemmas -/

theorem sortedBounded_mono (l : List (String × Int)) (t t' : Int)
    (h : sortedBounded l t) (ht : t ≤ t') : sortedBounded l t' :=
  ⟨h.1, fun p hp => le_trans (h.2 p hp) ht⟩

theorem sortedBounded_sublist (l l' : List (String × Int)) (t : Int)
    (hsub : List.Sublist l' l) (h : sortedBounded l t) : sortedBounded l' t :=
  ⟨h.1.sublist hsub, fun p hp => h.2 p (hsub.mem hp)⟩

theorem lruSet_sortedBounded (l : List (String × Int)) (sid : String) (t : Int)
    (h : sortedBounded l t) : sortedBounded (lruSet l sid t) t := by
  have herase : sortedBounded (eraseKey sid l) t :=
    sortedBounded_sublist l _ t (List.filter_sublist l) h
  constructor
  · rw [lruSet]
    apply List.pairwise_append.mpr
    refine ⟨herase.1, List.pairwise_singleton _ _, ?_⟩
    intro a ha b hb
    simp only [List.mem_singleton] at hb
    subst hb
    exact herase.2 a ha
  · intro p hp
    rw [lruSet] at hp
    rcases List.mem_append.mp hp with hp | hp
    · exact herase.2 p hp
    · simp only [List.mem_singleton] at hp
      subst hp
      exact le_refl t

theorem sweepRun_sortedBounded (exp now t : Int) (sessions : List (String × WebioSession))
    (expire : List (String × Int)) (h : sortedBounded expire t) :
    sortedBounded (sweepRun exp now sessions expire).2.1 t :=
  sortedBounded_sublist expire _ t (sweepRun_expire_suffix exp now expire sessions).sublist h

theorem finishRequest_inv (cfg : HandlerConfig) (st : HState) (req : HttpRequest)
    (now : Int) (sid : String) (sess : WebioSession) (resp : HttpResponse)
    (h : sortedBounded st.webio_expire now) :
    sortedBounded (finishRequest cfg st req now sid sess resp).1.webio_expire now := by
  unfold finishRequest
  dsimp only
  have h1 : sortedBounded (lruSet st.webio_expire sid now) now :=
    lruSet_sortedBounded st.webio_expire sid now h
  split
  · -- a closed session is additionally erased
    split
    · exact sortedBounded_sublist _ _ _ (List.filter_sublist _)
        (sweepRun_sortedBounded _ now now _ _ h1)
    · exact sortedBounded_sublist _ _ _ (List.filter_sublist _) h1
  · split
    · exact sweepRun_sortedBounded _ now now _ _ h1
    · exact h1

theorem handle_request_inv (cfg : HandlerConfig) (st : HState) (req : HttpRequest)
    (now : Int) (freshId : String) (freshSession : WebioSession)
    (h : sortedBounded st.webio_expire now) :
    sortedBounded (handle_request cfg st req now freshId freshSession).1.webio_expire now := by
  unfold handle_request
  dsimp only
  split
  · exact h
  · split
    · exact h
    · split
      · split
        · exact h
        · exact finishRequest_inv _ _ _ _ _ _ _ h
      · split
        · exact h
        · exact finishRequest_inv _ _ _ _ _ _ _ h

theorem runRequests_inv (cfg : HandlerConfig) :
    ∀ (es : List ReqEvent) (st : HState) (t : Int),
      sortedBounded st.webio_expire t →
      List.Chain (fun a b : Int => a ≤ b) t (es.map ReqEvent.now) →
      List.Pairwise (fun p q : String × Int => p.2 ≤ q.2)
        (runRequests cfg st es).webio_expire := by
  intro es
  induction es with
  | nil => intro st t h _; exact h.1
  | cons e tl ih =>
    intro st t h hchain
    rw [List.map_cons, List.chain_cons] at hchain
    have h1 : sortedBounded st.webio_expire e.now :=
      sortedBounded_mono _ _ _ h hchain.1
    have h2 := handle_request_inv cfg st e.req e.now e.freshId e.freshSession h1
    exact ih _ e.now h2 hchain.2

/-! ### Claim C1 -/

/-- Claim C1 (counterexample): a POST liveness probe carries no
`webio-session-id` header, yet the handler answers it with 200 and the body
`ok`, not 403 — the probe check precedes the CSRF check.  This refutes the
claim that every POST lacking a session id yields 403. -/
theorem csrf_guard_probe_counterexample :
    reqProbePostW.method = "POST" ∧
    lookupKey "webio-session-id" reqProbePostW.headers = none ∧
    (handle_request cfgW initState reqProbePostW 0 "x" sessW).2.1.status ≠ 403 ∧
    (handle_request cfgW initState reqProbePostW 0 "x" sessW).2.1.status = 200 ∧
    (handle_request cfgW initState reqProbePostW 0 "x" sessW).2.1.body = RespBody.text "ok" := by
  decide

/-- Claim C1 (amended): for every POST request that is not a liveness probe
and whose headers lack a `webio-session-id` entry (or carry an empty one),
the handler responds with status 403, the state (session map, activity index
and sweep timestamp) is unchanged, and no session handle is interacted with. -/
theorem csrf_guard_rejects_post (cfg : HandlerConfig) (st : HState) (req : HttpRequest)
    (now : Int) (freshId : String) (freshSession : WebioSession)
    (hm : req.method = "POST") (hp : pyTruthyStr req.testParam = false)
    (hs : lookupKey "webio-session-id" req.headers = none ∨
          lookupKey "webio-session-id" req.headers = some "") :
    (handle_request cfg st req now freshId freshSession).1 = st ∧
    (handle_request cfg st req now freshId freshSession).2.1.status = 403 ∧
    (handle_request cfg st req now freshId freshSession).2.2.1 = [] ∧
    (handle_request cfg st req now freshId freshSession).2.2.2 = [] :=
  handle_request_csrf cfg st req now freshId freshSession hm hp hs

/-- Claim C1 witness: the amended guard at a concrete plain POST. -/
theorem csrf_guard_rejects_post_witness :
    (reqPostW.method = "POST" ∧ pyTruthyStr reqPostW.testParam = false ∧
      lookupKey "webio-session-id" reqPostW.headers = none) ∧
    (handle_request cfgW initState reqPostW 0 "x" sessW).1 = initState ∧
    (handle_request cfgW initState reqPostW 0 "x" sessW).2.1.status = 403 := by
  have h := csrf_guard_rejects_post cfgW initState reqPostW 0 "x" sessW rfl (by decide)
    (Or.inl (by decide))
  exact ⟨⟨rfl, by decide, by decide⟩, h.1, h.2.1⟩

/-! ### Claim C2 -/

/-- Claim C2 (counterexample): session `s` was last touched at time 0 with a
60-second expiry; a GET bearing `s` arrives at time 61 (past expiry), yet the
response carries the session's commands rather than the close-session
instruction, and `s` remains in both structures with its activity refreshed
to 61 — the handler touches the session before sweeping, so a request to a
not-yet-swept expired session keeps it alive. -/
theorem expired_session_request_refreshes_counterexample :
    stOneW.webio_expire = [("s", 0)] ∧
    cfgW.session_expire_seconds = 60 ∧ ((61:Int) > 0 + 60) ∧
    lookupKey "webio-session-id" reqGetSW.headers = some "s" ∧
    (handle_request cfgW stOneW reqGetSW 61 "x" sessW).2.1.body ≠
      RespBody.json [Cmd.closeSession] ∧
    lookupKey "s" (handle_request cfgW stOneW reqGetSW 61 "x" sessW).1.webio_sessions =
      some sessW ∧
    lookupKey "s" (handle_request cfgW stOneW reqGetSW 61 "x" sessW).1.webio_expire =
      some 61 := by
  decide

/-- Claim C2 (amended): for a session last touched at time `ts` in an
activity-ordered, duplicate-free index, once an expiration sweep runs at a
time later than `ts + session_expire_seconds` the id is absent from both the
session map and the activity index, and every subsequent non-preflight,
non-probe request bearing that id receives the close-session instruction and
leaves the state unchanged. -/
theorem expiration_sweep_then_close_session (exp now ts : Int) (st : HState) (sid : String)
    (hsort : List.Pairwise (fun p q : String × Int => p.2 ≤ q.2) st.webio_expire)
    (hnd : (st.webio_expire.map Prod.fst).Nodup)
    (hmem : (sid, ts) ∈ st.webio_expire)
    (hlate : now > ts + exp) :
    (lookupKey sid (remove_expired_sessions exp now st).1.webio_expire = none ∧
     lookupKey sid (remove_expired_sessions exp now st).1.webio_sessions = none) ∧
    (∀ (cfg : HandlerConfig) (st2 : HState) (req : HttpRequest) (now2 : Int)
       (fid : String) (fs : WebioSession),
       req.method ≠ "OPTIONS" → pyTruthyStr req.testParam = false →
       lookupKey "webio-session-id" req.headers = some sid → sid ≠ "" →
       lookupKey sid st2.webio_sessions = none →
       (handle_request cfg st2 req now2 fid fs).2.1.body =
         RespBody.json [Cmd.closeSession] ∧
       (handle_request cfg st2 req now2 fid fs).1 = st2) := by
  have hexp : now - ts ≥ exp := by omega
  have h := sweepRun_expired_removed exp now st.webio_expire st.webio_sessions hsort hnd
    (sid, ts) hmem hexp
  refine ⟨⟨h.1, h.2⟩, ?_⟩
  intro cfg st2 req now2 fid fs hm hp hs hne hmiss
  have hh := handle_request_unknown_sid cfg st2 req now2 fid fs sid hm hp hs hne hmiss
  exact ⟨hh.2.2.1, hh.1⟩

/-- Claim C2 witness: session `a`, last touched at 0, swept at 61 with a
60-second expiry; a later GET bearing `a` gets the close-session body. -/
theorem expiration_sweep_then_close_session_witness :
    ((("a", (0:Int)) ∈ stTwoW.webio_expire) ∧ ((61:Int) > 0 + 60)) ∧
    lookupKey "a" (remove_expired_sessions 60 61 stTwoW).1.webio_expire = none ∧
    lookupKey "a" (remove_expired_sessions 60 61 stTwoW).1.webio_sessions = none ∧
    (handle_request cfgW (remove_expired_sessions 60 61 stTwoW).1 reqGetAW 100 "x" sessW).2.1.body =
      RespBody.json [Cmd.closeSession] := by
  have h := expiration_sweep_then_close_session 60 61 0 stTwoW "a"
    (by decide) (by decide) (by decide) (by decide)
  exact ⟨⟨by decide, by decide⟩, h.1.1, h.1.2,
    (h.2 cfgW (remove_expired_sessions 60 61 stTwoW).1 reqGetAW 100 "x" sessW
      (by decide) (by decide) (by decide) (by decide) (by decide)).1⟩

/-! ### Claim C3 -/

/-- Claim C3 (counterexample): the explicit destruction path does not call
`close()`.  A GET on the already-closed session `s` removes `s` from both
structures (a destruction) while the request's `close()` call log stays
empty, refuting the claim that every destruction calls `close()` on the
handle. -/
theorem explicit_destruction_skips_close_counterexample :
    sessClosedW.isClosed = true ∧
    (handle_request cfgW stClosedW reqGetSW 10 "x" sessW).2.2.1 = [] ∧
    lookupKey "s" (handle_request cfgW stClosedW reqGetSW 10 "x" sessW).1.webio_sessions = none ∧
    lookupKey "s" (handle_request cfgW stClosedW reqGetSW 10 "x" sessW).1.webio_expire = none := by
  decide

/-- Claim C3 (amended): every destruction removes the id from both the
session map and the activity index (never one without the other): the
explicit path (`_remove_webio_session`) removes from both but does not call
`close()` (the session has already terminated on its own), while the
expiration sweep both calls `close()` on a registered handle and removes the
id from both structures. -/
theorem destruction_removes_from_both (sid : String) (st : HState)
    (exp now ts : Int) (s : WebioSession) :
    (lookupKey sid (remove_webio_session sid st).webio_sessions = none ∧
     lookupKey sid (remove_webio_session sid st).webio_expire = none) ∧
    (List.Pairwise (fun p q : String × Int => p.2 ≤ q.2) st.webio_expire →
     (st.webio_expire.map Prod.fst).Nodup →
     (sid, ts) ∈ st.webio_expire → now - ts ≥ exp →
     lookupKey sid st.webio_sessions = some s →
     sid ∈ (remove_expired_sessions exp now st).2 ∧
     lookupKey sid (remove_expired_sessions exp now st).1.webio_sessions = none ∧
     lookupKey sid (remove_expired_sessions exp now st).1.webio_expire = none) := by
  constructor
  · exact ⟨lookupKey_eraseKey_self sid st.webio_sessions,
      lookupKey_eraseKey_self sid st.webio_expire⟩
  · intro hsort hnd hmem hexp hfound
    have h := sweepRun_expired_removed exp now st.webio_expire st.webio_sessions hsort hnd
      (sid, ts) hmem hexp
    have hc := sweepRun_closes_mem exp now st.webio_expire st.webio_sessions hsort hnd
      (sid, ts) hmem hexp (by rw [hfound]; rfl)
    exact ⟨hc, h.2, h.1⟩

/-- Claim C3 witness: both destruction paths at session `a` of a concrete
two-session state. -/
theorem destruction_removes_from_both_witness :
    (lookupKey "a" stTwoW.webio_sessions = some sessW ∧ (61:Int) - 0 ≥ 60) ∧
    lookupKey "a" (remove_webio_session "a" stTwoW).webio_sessions = none ∧
    lookupKey "a" (remove_webio_session "a" stTwoW).webio_expire = none ∧
    "a" ∈ (remove_expired_sessions 60 61 stTwoW).2 ∧
    lookupKey "a" (remove_expired_sessions 60 61 stTwoW).1.webio_sessions = none ∧
    lookupKey "a" (remove_expired_sessions 60 61 stTwoW).1.webio_expire = none := by
  have h := destruction_removes_from_both "a" stTwoW 60 61 0 sessW
  have h2 := h.2 (by decide) (by decide) (by decide) (by decide) (by decide)
  exact ⟨⟨by decide, by decide⟩, h.1.1, h.1.2, h2.1, h2.2.1, h2.2.2⟩

/-! ### Claim C4 -/

/-- Claim C4: every non-preflight, non-probe request carrying a non-empty
session id absent from the session map is answered with status 200 and the
JSON body `[⟨close_session⟩]`, and the handler performs no registry
interaction: the state is returned unchanged and no close or event effect
occurs. -/
theorem unknown_session_close_session_response (cfg : HandlerConfig) (st : HState)
    (req : HttpRequest) (now : Int) (freshId : String) (freshSession : WebioSession)
    (s : String)
    (hm : req.method ≠ "OPTIONS") (hp : pyTruthyStr req.testParam = false)
    (hs : lookupKey "webio-session-id" req.headers = some s) (hne : s ≠ "")
    (hmiss : lookupKey s st.webio_sessions = none) :
    (handle_request cfg st req now freshId freshSession).2.1.status = 200 ∧
    (handle_request cfg st req now freshId freshSession).2.1.body =
      RespBody.json [Cmd.closeSession] ∧
    (handle_request cfg st req now freshId freshSession).1 = st ∧
    (handle_request cfg st req now freshId freshSession).2.2.1 = [] ∧
    (handle_request cfg st req now freshId freshSession).2.2.2 = [] := by
  have h := handle_request_unknown_sid cfg st req now freshId freshSession s hm hp hs hne hmiss
  exact ⟨h.2.1, h.2.2.1, h.1, h.2.2.2⟩

/-- Claim C4 witness: a GET with an unregistered id against a concrete state. -/
theorem unknown_session_close_session_response_witness :
    (reqGetUnknownW.method ≠ "OPTIONS" ∧
      lookupKey "webio-session-id" reqGetUnknownW.headers = some "zzz" ∧
      lookupKey "zzz" stOneW.webio_sessions = none) ∧
    (handle_request cfgW stOneW reqGetUnknownW 5 "x" sessW).2.1.status = 200 ∧
    (handle_request cfgW stOneW reqGetUnknownW 5 "x" sessW).2.1.body =
      RespBody.json [Cmd.closeSession] ∧
    (handle_request cfgW stOneW reqGetUnknownW 5 "x" sessW).1 = stOneW := by
  have h := unknown_session_close_session_response cfgW stOneW reqGetUnknownW 5 "x" sessW
    "zzz" (by decide) (by decide) (by decide) (by decide) (by decide)
  exact ⟨⟨by decide, by decide, by decide⟩, h.1, h.2.1, h.2.2.1⟩

/-! ### Claim C5 -/

/-- Claim C5: on an activity-ordered (and duplicate-free) index, the sweep
keeps exactly the fresh entries: after it, every remaining entry has idle
time below the threshold, and every entry whose idle time reached the
threshold has been evicted from both structures, with `close()` called on
its handle when one was registered. -/
theorem sweep_evicts_exactly_expired (exp now : Int) (st : HState)
    (hsort : List.Pairwise (fun p q : String × Int => p.2 ≤ q.2) st.webio_expire)
    (hnd : (st.webio_expire.map Prod.fst).Nodup) :
    (∀ p ∈ (remove_expired_sessions exp now st).1.webio_expire, now - p.2 < exp) ∧
    (∀ p ∈ st.webio_expire, now - p.2 ≥ exp →
       lookupKey p.1 (remove_expired_sessions exp now st).1.webio_expire = none ∧
       lookupKey p.1 (remove_expired_sessions exp now st).1.webio_sessions = none ∧
       ((lookupKey p.1 st.webio_sessions).isSome →
         p.1 ∈ (remove_expired_sessions exp now st).2)) := by
  constructor
  · intro p hp
    exact sweepRun_remaining_fresh exp now st.webio_expire st.webio_sessions hsort p hp
  · intro p hp hexp
    have h := sweepRun_expired_removed exp now st.webio_expire st.webio_sessions hsort hnd p hp hexp
    exact ⟨h.1, h.2, fun hsome =>
      sweepRun_closes_mem exp now st.webio_expire st.webio_sessions hsort hnd p hp hexp hsome⟩

/-- Claim C5 witness: sweeping the two-session state at time 61 evicts the
stale session `a` from both structures and closes it. -/
theorem sweep_evicts_exactly_expired_witness :
    ((("a", (0:Int)) ∈ stTwoW.webio_expire) ∧ (61:Int) - 0 ≥ 60 ∧
      (lookupKey "a" stTwoW.webio_sessions).isSome) ∧
    lookupKey "a" (remove_expired_sessions 60 61 stTwoW).1.webio_expire = none ∧
    lookupKey "a" (remove_expired_sessions 60 61 stTwoW).1.webio_sessions = none ∧
    "a" ∈ (remove_expired_sessions 60 61 stTwoW).2 := by
  have h := (sweep_evicts_exactly_expired 60 61 stTwoW (by decide) (by decide)).2
    ("a", 0) (by decide) (by decide)
  exact ⟨⟨by decide, by decide, by decide⟩, h.1, h.2.1, h.2.2 (by decide)⟩

/-! ### Claim C6 -/

/-- Claim C6: after any sequence of requests handled with non-decreasing
clock values (each request touching its session's activity entry and moving
it to the most-recently-seen end, with sweeps triggered inside requests),
iterating the activity index from least- to most-recently-seen yields
monotonically non-decreasing timestamps. -/
theorem activity_index_timestamps_sorted (cfg : HandlerConfig) (es : List ReqEvent)
    (h : List.Chain' (fun a b : Int => a ≤ b) (es.map ReqEvent.now)) :
    List.Pairwise (fun a b : Int => a ≤ b)
      ((runRequests cfg initState es).webio_expire.map Prod.snd) := by
  cases es with
  | nil => simp [runRequests, initState]
  | cons e tl =>
    have h' : List.Chain (fun a b : Int => a ≤ b) e.now (tl.map ReqEvent.now) := h
    have hch : List.Chain (fun a b : Int => a ≤ b) e.now ((e :: tl).map ReqEvent.now) := by
      rw [List.map_cons]
      exact List.Chain.cons (le_refl _) h'
    have hinv := runRequests_inv cfg (e :: tl) initState e.now
      ⟨List.Pairwise.nil, by simp [initState]⟩ hch
    exact List.pairwise_map.mpr hinv

/-- Claim C6 witness: two session-creating requests at times 1 and 2 leave a
sorted activity index. -/
theorem activity_index_timestamps_sorted_witness :
    List.Chain' (fun a b : Int => a ≤ b) ([evW1, evW2].map ReqEvent.now) ∧
    List.Pairwise (fun a b : Int => a ≤ b)
      ((runRequests cfgW initState [evW1, evW2]).webio_expire.map Prod.snd) := by
  have hch : List.Chain' (fun a b : Int => a ≤ b) ([evW1, evW2].map ReqEvent.now) := by
    simp [evW1, evW2, List.chain'_cons]
  exact ⟨hch, activity_index_timestamps_sorted cfgW [evW1, evW2] hch⟩

/-! ### Claim C7 -/

/-- Claim C7: origin-policy resolution and CORS header setting.  A supplied
predicate decides the verdict (the pattern list is ignored); with no
predicate the verdict is an any-match of `fnmatch` over the configured
patterns; with neither predicate nor patterns every origin is rejected; and
`_process_cors` appends exactly the five CORS headers (allow-origin echoing
the request's origin) when the verdict is true and leaves the response
untouched when it is false. -/
theorem origin_policy_check (f : String → Bool) (e c : Option Int)
    (ao : Option (List String)) (origin : String) (req : HttpRequest)
    (resp : HttpResponse) :
    ((httpHandler_init e c ao (some f)).check_origin origin = f origin) ∧
    ((httpHandler_init e c ao none).check_origin origin = true ↔
       ∃ patten ∈ ao.getD [], fnmatch origin patten = true) ∧
    ((httpHandler_init e c none none).check_origin origin = false) ∧
    (∀ chk : String → Bool,
       chk ((lookupKey "Origin" req.headers).getD "") = true →
       process_cors chk req resp =
         { resp with headers := resp.headers ++
             [("Access-Control-Allow-Origin", (lookupKey "Origin" req.headers).getD ""),
              ("Access-Control-Allow-Methods", "GET, POST"),
              ("Access-Control-Allow-Headers", "content-type, webio-session-id"),
              ("Access-Control-Expose-Headers", "webio-session-id"),
              ("Access-Control-Max-Age", "86400")] }) ∧
    (∀ chk : String → Bool,
       chk ((lookupKey "Origin" req.headers).getD "") = false →
       process_cors chk req resp = resp) := by
  refine ⟨rfl, ?_, rfl, ?_, ?_⟩
  · simp [httpHandler_init, List.any_eq_true]
  · intro chk h
    unfold process_cors
    dsimp only
    rw [if_pos h]
    rfl
  · intro chk h
    unfold process_cors
    dsimp only
    rw [if_neg (by simp [h])]

/-- Claim C7 witness: the glob policy accepts `https://a.example.com` under
pattern `https://*.example.com`, rejects `https://evil.com`, and an accepted
origin receives exactly the five CORS headers. -/
theorem origin_policy_check_witness :
    chkW ((lookupKey "Origin" reqOriginW.headers).getD "") = true ∧
    (httpHandler_init none none (some ["https://*.example.com"]) none).check_origin
      "https://a.example.com" = true ∧
    (httpHandler_init none none (some ["https://*.example.com"]) none).check_origin
      "https://evil.com" = false ∧
    process_cors chkW reqOriginW {} =
      { headers := [("Access-Control-Allow-Origin", "https://a.example.com"),
                    ("Access-Control-Allow-Methods", "GET, POST"),
                    ("Access-Control-Allow-Headers", "content-type, webio-session-id"),
                    ("Access-Control-Expose-Headers", "webio-session-id"),
                    ("Access-Control-Max-Age", "86400")] } := by
  have h1 : chkW ((lookupKey "Origin" reqOriginW.headers).getD "") = true := by decide
  refine ⟨h1, ?_, by decide, ?_⟩
  · exact (origin_policy_check chkW none none (some ["https://*.example.com"])
      "https://a.example.com" reqOriginW {}).2.1.mpr
      ⟨"https://*.example.com", by decide, by decide⟩
  · have h := (origin_policy_check chkW none none none "" reqOriginW {}).2.2.2.1 chkW h1
    rw [h]
    decide

/-! ### Claim C8 -/

/-- Claim C8 (counterexample): a PUT bearing a registered session id is
answered with 200, not 500 — the handler silently treats it like a GET pull. -/
theorem put_request_returns_200_counterexample :
    reqPutSW.method = "PUT" ∧
    (lookupKey "s" stOneW.webio_sessions).isSome ∧
    (handle_request cfgW stOneW reqPutSW 10 "x" sessW).2.1.status = 200 ∧
    (handle_request cfgW stOneW reqPutSW 10 "x" sessW).2.1.status ≠ 500 := by
  decide

/-- Claim C8 (amended): a request whose method is outside the enumerated
cases (neither `OPTIONS` nor `POST`, e.g. PUT or DELETE) is handled exactly
as the same request with method `GET`; in particular, bearing a valid
session id it succeeds silently with status 200 and the session's commands
rather than responding 500. -/
theorem unlisted_method_behaves_like_get (cfg : HandlerConfig) (st : HState)
    (req : HttpRequest) (now : Int) (freshId : String) (freshSession : WebioSession)
    (h1 : req.method ≠ "OPTIONS") (h2 : req.method ≠ "POST") :
    handle_request cfg st req now freshId freshSession =
      handle_request cfg st { req with method := "GET" } now freshId freshSession ∧
    (∀ (s : String) (sess : WebioSession),
       pyTruthyStr req.testParam = false →
       lookupKey "webio-session-id" req.headers = some s → s ≠ "" →
       lookupKey s st.webio_sessions = some sess →
       (handle_request cfg st req now freshId freshSession).2.1.status = 200 ∧
       (handle_request cfg st req now freshId freshSession).2.1.body =
         RespBody.json sess.taskCommands) :=
  ⟨handle_request_method_like_get cfg st req now freshId freshSession h1 h2,
   fun s sess hp hs hne hf =>
     handle_request_established cfg st req now freshId freshSession s sess h1 hp hs hne hf⟩

/-- Claim C8 witness: a concrete PUT with a valid session id. -/
theorem unlisted_method_behaves_like_get_witness :
    (reqPutSW.method = "PUT" ∧ lookupKey "s" stOneW.webio_sessions = some sessW) ∧
    handle_request cfgW stOneW reqPutSW 10 "x" sessW =
      handle_request cfgW stOneW { reqPutSW with method := "GET" } 10 "x" sessW ∧
    (handle_request cfgW stOneW reqPutSW 10 "x" sessW).2.1.status = 200 := by
  have h := unlisted_method_behaves_like_get cfgW stOneW reqPutSW 10 "x" sessW
    (by decide) (by decide)
  exact ⟨⟨rfl, by decide⟩, h.1,
    (h.2 "s" sessW (by decide) (by decide) (by decide) (by decide)).1⟩

/-! ### Claim C9 -/

/-- Claim C9: eviction is idempotent on the session map and activity index —
evicting twice equals evicting once, and evicting an id absent from both
structures leaves the state exactly as it was (and never raises). -/
theorem evict_idempotent_noop (sid : String) (st : HState) :
    remove_webio_session sid (remove_webio_session sid st) = remove_webio_session sid st ∧
    (lookupKey sid st.webio_sessions = none → lookupKey sid st.webio_expire = none →
      remove_webio_session sid st = st) := by
  constructor
  · unfold remove_webio_session eraseKey
    simp [List.filter_filter]
  · intro h1 h2
    rw [lookupKey_eq_none_iff] at h1 h2
    unfold remove_webio_session eraseKey
    have e1 : st.webio_sessions.filter (fun p => p.1 ≠ sid) = st.webio_sessions :=
      List.filter_eq_self.mpr (fun p hp => by simp [h1 p hp])
    have e2 : st.webio_expire.filter (fun p => p.1 ≠ sid) = st.webio_expire :=
      List.filter_eq_self.mpr (fun p hp => by simp [h2 p hp])
    rw [e1, e2]

/-- Claim C9 witness: evicting the absent id `b` from a concrete one-session
state is a no-op, and double eviction equals single eviction. -/
theorem evict_idempotent_noop_witness :
    (lookupKey "b" stOneW.webio_sessions = none ∧
      lookupKey "b" stOneW.webio_expire = none) ∧
    remove_webio_session "b" (remove_webio_session "b" stOneW) =
      remove_webio_session "b" stOneW ∧
    remove_webio_session "b" stOneW = stOneW := by
  have h := evict_idempotent_noop "b" stOneW
  exact ⟨⟨by decide, by decide⟩, h.1, h.2 (by decide) (by decide)⟩

/-! ### Claim C10 -/

/-- Claim C10: the constructor coalesces falsy interval arguments — passing 0
(like passing nothing) for `session_expire_seconds` or
`session_cleanup_interval` yields the class defaults of 60 and 20 seconds,
so a caller cannot configure a zero-second expiry or cleanup interval. -/
theorem init_zero_intervals_use_defaults (ao : Option (List String))
    (co : Option (String → Bool)) :
    (httpHandler_init (some 0) (some 0) ao co).session_expire_seconds = 60 ∧
    (httpHandler_init (some 0) (some 0) ao co).session_cleanup_interval = 20 ∧
    (httpHandler_init none none ao co).session_expire_seconds = 60 ∧
    (httpHandler_init none none ao co).session_cleanup_interval = 20 ∧
    DEFAULT_SESSION_EXPIRE_SECONDS = 60 ∧ SESSIONS_CLEANUP_INTERVAL = 20 :=
  ⟨rfl, rfl, rfl, rfl, rfl, rfl⟩
